import Mathlib

/-!
Verification of the LLM model-selection tool (sources:
`ll_model_selection.py` and `html_report.py`).

Modelling conventions:
* Python floats are embedded as exact rationals (`ℚ`); all the arithmetic
  the program performs on them (ratios, subtraction, division by 0.75,
  threshold comparisons) is exact at every input the claims mention.
* Python `int(x)` (truncation toward zero) is `pyInt`.
* Each external interaction is supplied as an explicit outcome: the CUDA
  probe as `CudaOutcome`, whose `available devs interrupted` case carries
  the devices fully processed before the loop completed or a caught
  exception cut it short (so mid-loop exceptions leave a partial
  accumulation, as in the source); the MPS probe, the file write and the
  browser launch as `Except PyErr` values.  Assignments and console writes
  are assumed not to raise; the failable operations are the torch queries,
  the file write and the browser launch.
* The HTML f-string template of `generate_html_report` is embedded as the
  concatenation of its literal chunks (`htmlChunk0` … `htmlChunk21`) with
  the interpolated fields in source order; `datetime.now()` becomes an
  explicit `timestamp` argument.
-/

namespace LlModelSelection

/-- Constant MPS_USABLE_MEMORY_RATIO (ll_model_selection.py line 43):
conservative estimate for macOS unified memory. -/
def mpsUsableMemoryRatio : ℚ := 0.75

/-- Constant CPU_USABLE_MEMORY_RATIO (line 44): half of RAM for CPU inference. -/
def cpuUsableMemoryRatio : ℚ := 0.5

/-- Constant CONTEXT_OVERHEAD_GB (line 45): memory overhead for context/KV cache. -/
def contextOverheadGb : ℚ := 2.0

/-- Constant QUANT_4BIT_GB_PER_BILLION (line 46): VRAM per billion parameters. -/
def quant4bitGbPerBillion : ℚ := 0.75

/-- Constant VRAM_TIER_ENTERPRISE (line 49). -/
def vramTierEnterprise : ℚ := 48.0

/-- Constant VRAM_TIER_PROFESSIONAL (line 50). -/
def vramTierProfessional : ℚ := 24.0

/-- Constant VRAM_TIER_ADVANCED (line 51). -/
def vramTierAdvanced : ℚ := 16.0

/-- Constant VRAM_TIER_STANDARD (line 52). -/
def vramTierStandard : ℚ := 8.0

/-- A CUDA device as reported by torch.cuda.get_device_properties:
a name and a total memory in bytes. -/
structure GpuDevice where
  name : String
  total_memory : ℕ
deriving DecidableEq

/-- An entry of the gpu_details list built by get_hardware_capacity:
the dict with keys name and vram (in GB). -/
structure GpuInfo where
  name : String
  vram : ℚ
deriving DecidableEq

/-- An abstract Python exception (all the handlers the source installs
catch every exception class raised by a probe). -/
structure PyErr where
  msg : String
deriving DecidableEq

/-- Outcome of the torch.cuda try-block (ll_model_selection.py lines
77-93).  The failable operations are the torch queries: is_available(),
device_count() and each get_device_properties(i); assignments, appends and
console writes are assumed not to raise.
* `raised e`: is_available() itself raised, so the exception was caught
  before any assignment ran and the initial state is untouched.
* `notAvailable`: is_available() returned False.
* `available devs interrupted`: is_available() returned True (so
  device_type = "cuda" was assigned); the loop fully processed the devices
  in `devs` — appending each to gpu_details and accumulating its memory —
  and then either completed (`interrupted = none`) or a further query
  raised and was caught (`interrupted = some e`), leaving the partial
  accumulation in place.  device_count() raising right after detection is
  `available [] (some e)`. -/
inductive CudaOutcome where
  | raised (e : PyErr)
  | notAvailable
  | available (devs : List GpuDevice) (interrupted : Option PyErr)
deriving DecidableEq

/-- Outcome of the torch.backends.mps.is_available() query: an exception
or the returned Bool. -/
abbrev MpsOutcome := Except PyErr Bool

/-- Conversion props.total_memory / (1024 ** 3) (line 84). -/
def bytesToGb (b : ℕ) : ℚ := (b : ℚ) / (1024 ^ 3)

/-- The total vram_gb accumulated by the CUDA loop (lines 82-87). -/
def cudaVram (devs : List GpuDevice) : ℚ :=
  (devs.map (fun d => bytesToGb d.total_memory)).sum

/-- The gpu_details list accumulated by the CUDA loop (line 86). -/
def cudaDetails (devs : List GpuDevice) : List GpuInfo :=
  devs.map (fun d => { name := d.name, vram := bytesToGb d.total_memory })

/-- Return value of get_hardware_capacity (line 117):
(vram_gb, device_type, ram_gb, system, gpu_details). -/
structure HwCapacity where
  vram_gb : ℚ
  device_type : String
  ram_gb : ℚ
  system : String
  gpu_details : List GpuInfo
deriving DecidableEq

/-- Embedding of get_hardware_capacity (ll_model_selection.py lines 54-117).
Step 1 is the CUDA try-block: once is_available() returns True it sets
device_type = "cuda" and the loop accumulates vram and gpu_details for the
devices it processed before completing or being cut short by a caught
exception (the handlers at lines 88-93 swallow every exception class, so a
mid-loop exception keeps the partial accumulation); an exception raised by
is_available() itself, or is_available() = False, leaves the initial
state.  Step 2 (MPS) runs only while vram_gb == 0; an exception there can
only come from the is_available() query (the rest of the block is
assignments), so it is caught with the initial state intact.  Step 3 is
the CPU fallback, again guarded by vram_gb == 0. -/
def getHardwareCapacity (cuda : CudaOutcome) (mps : MpsOutcome)
    (ram_gb : ℚ) (system : String) : HwCapacity :=
  let step1 : String × ℚ × List GpuInfo :=
    match cuda with
    | .available devs _ => ("cuda", cudaVram devs, cudaDetails devs)
    | .notAvailable => ("cpu", 0, [])
    | .raised _ => ("cpu", 0, [])
  let step2 : String × ℚ :=
    if step1.2.1 = 0 then
      match mps with
      | .ok true => ("mps", ram_gb * mpsUsableMemoryRatio)
      | .ok false => (step1.1, step1.2.1)
      | .error _ => (step1.1, step1.2.1)
    else (step1.1, step1.2.1)
  let step3 : String × ℚ :=
    if step2.2 = 0 then ("cpu", ram_gb * cpuUsableMemoryRatio)
    else step2
  { vram_gb := step3.2, device_type := step3.1, ram_gb := ram_gb,
    system := system, gpu_details := step1.2.2 }

/-- Python int() on a float: truncation toward zero. -/
def pyInt (q : ℚ) : ℤ := if 0 ≤ q then ⌊q⌋ else ⌈q⌉

/-- The guarded formula for max_params (lines 135-138). -/
def maxParamsRaw (vram_gb : ℚ) : ℚ :=
  if quant4bitGbPerBillion > 0 then
    (vram_gb - contextOverheadGb) / quant4bitGbPerBillion
  else 0

/-- The clamp `if max_params < 2: max_params = 2` (lines 140-141). -/
def maxParamsClamped (vram_gb : ℚ) : ℚ :=
  if maxParamsRaw vram_gb < 2 then 2 else maxParamsRaw vram_gb

/-- The int(max_params) returned by recommend_models (line 189). -/
def recommendMaxParams (vram_gb : ℚ) : ℤ := pyInt (maxParamsClamped vram_gb)

/-- Model list of the Enterprise branch (lines 150-154). -/
def enterpriseModels : List (String × String) :=
  [("Llama-3.1-70B / Llama-3.3-70B", "High performance flagship models"),
   ("Qwen2.5-72B", "Excellent reasoning and multilingual capabilities"),
   ("Mixtral 8x7B", "Mixture of Experts architecture for efficiency")]

/-- Model list of the Professional branch (lines 156-161). -/
def professionalModels : List (String × String) :=
  [("Llama-3.1-70B", "Heavily quantized, may be slower but very capable"),
   ("Mixtral 8x7B", "Comfortable fit with good performance"),
   ("Command R (35B)", "Optimized for RAG and tool use"),
   ("Qwen2.5-32B", "Strong reasoning with multilingual support")]

/-- Model list of the Advanced branch (lines 163-167). -/
def advancedModels : List (String × String) :=
  [("Llama-3.1-13B / Llama-2-13B", "Balanced performance and efficiency"),
   ("Mistral-7B", "Quantized with plenty of headroom"),
   ("Qwen2.5-14B", "Strong performance in this tier")]

/-- Model list of the Standard branch (lines 169-174). -/
def standardModels : List (String × String) :=
  [("Llama-3.1-8B", "Gold standard for consumer hardware"),
   ("Mistral-7B", "Excellent general-purpose model"),
   ("Gemma-7B", "Google\x27s efficient open model"),
   ("Qwen2.5-7B", "Strong multilingual capabilities")]

/-- Model list of the fallback (Entry) branch (lines 176-180). -/
def entryModels : List (String × String) :=
  [("Phi-3-mini (3.8B)", "Highly capable for its size"),
   ("Gemma-2B", "Efficient small model"),
   ("TinyLlama (1.1B)", "Minimal resource requirements")]

/-- The tier selection chain of recommend_models (lines 149-180). -/
def recommendModelList (vram_gb : ℚ) : List (String × String) :=
  if vram_gb ≥ vramTierEnterprise then enterpriseModels
  else if vram_gb ≥ vramTierProfessional then professionalModels
  else if vram_gb ≥ vramTierAdvanced then advancedModels
  else if vram_gb ≥ vramTierStandard then standardModels
  else entryModels

/-- Embedding of recommend_models (lines 119-189); device_type only drives
console output in the source, the returned value ignores it. -/
def recommendModels (vram_gb : ℚ) (device_type : String) :
    ℤ × List (String × String) :=
  (recommendMaxParams vram_gb, recommendModelList vram_gb)

/-- Literal chunk 0 of the HTML template f-string in generate_html_report. -/
def htmlChunk0 : String :=
  "<!DOCTYPE html>\n<html lang=\"en\">\n<head>\n    <meta charset=\"UTF-8\">\n    <meta name=\"viewport\" content=\"width=device-width, initial-scale=1.0\">\n    <title>Hardware Analysis Report - LLM Model Selection</title>\n    <link href=\"https://fonts.googleapis.com/css2?family=Inter:wght@300;400;500;600;700;800&display=swap\" rel=\"stylesheet\">\n    <style>\n        * \x7b\n            margin: 0;\n            padding: 0;\n            box-sizing: border-box;\n        \x7d\n        \n        body \x7b\n            font-family: \x27Inter\x27, -apple-system, BlinkMacSystemFont, \x27Segoe UI\x27, sans-serif;\n            background: linear-gradient(135deg, #667eea 0%, #764ba2 100%);\n            min-height: 100vh;\n            padding: 2rem;\n            color: #1a1a1a;\n        \x7d\n        \n        .container \x7b\n            max-width: 1200px;\n            margin: 0 auto;\n        \x7d\n        \n        .header \x7b\n            text-align: center;\n            margin-bottom: 3rem;\n            animation: fadeInDown 0.6s ease-out;\n        \x7d\n        \n        .header h1 \x7b\n            color: white;\n            font-size: 3rem;\n            font-weight: 800;\n            margin-bottom: 0.5rem;\n            text-shadow: 0 2px 20px rgba(0,0,0,0.2);\n        \x7d\n        \n        .header .subtitle \x7b\n            color: rgba(255,255,255,0.9);\n            font-size: 1.1rem;\n            font-weight: 400;\n        \x7d\n        \n        .report-card \x7b\n            background: white;\n            border-radius: 24px;\n            padding: 2.5rem;\n            margin-bottom: 1.5rem;\n            box-shadow: 0 20px 60px rgba(0,0,0,0.15);\n            animation: fadeInUp 0.6s ease-out;\n            transition: transform 0.3s ease, box-shadow 0.3s ease;\n        \x7d\n        \n        .report-card:hover \x7b\n            transform: translateY(-4px);\n            box-shadow: 0 25px 70px rgba(0,0,0,0.2);\n        \x7d\n        \n        .card-header \x7b\n            display: flex;\n            align-items: center;\n            justify-content: space-between;\n            margin-bottom: 2rem;\n            padding-bottom: 1.5rem;\n            border-bottom: 2px solid #f0f0f0;\n        \x7d\n        \n        .card-title \x7b\n            font-size: 1.75rem;\n            font-weight: 700;\n            color: #1a1a1a;\n            display: flex;\n            align-items: center;\n            gap: 0.75rem;\n        \x7d\n        \n        .card-icon \x7b\n            font-size: 2rem;\n        \x7d\n        \n        .badge \x7b\n            padding: 0.5rem 1.25rem;\n            border-radius: 50px;\n            font-weight: 600;\n            font-size: 0.875rem;\n            text-transform: uppercase;\n            letter-spacing: 0.5px;\n        \x7d\n        \n        .tier-badge \x7b\n            background: linear-gradient(135deg, "

/-- Literal chunk 1 of the HTML template f-string in generate_html_report. -/
def htmlChunk1 : String :=
  ", "

/-- Literal chunk 2 of the HTML template f-string in generate_html_report. -/
def htmlChunk2 : String :=
  "dd);\n            color: white;\n            box-shadow: 0 4px 15px "

/-- Literal chunk 3 of the HTML template f-string in generate_html_report. -/
def htmlChunk3 : String :=
  "40;\n        \x7d\n        \n        .stats-grid \x7b\n            display: grid;\n            grid-template-columns: repeat(auto-fit, minmax(200px, 1fr));\n            gap: 1.5rem;\n            margin-bottom: 2rem;\n        \x7d\n        \n        .stat-box \x7b\n            background: linear-gradient(135deg, #f8f9fa 0%, #e9ecef 100%);\n            padding: 1.5rem;\n            border-radius: 16px;\n            border-left: 4px solid "

/-- Literal chunk 4 of the HTML template f-string in generate_html_report. -/
def htmlChunk4 : String :=
  ";\n            transition: all 0.3s ease;\n        \x7d\n        \n        .stat-box:hover \x7b\n            transform: translateX(4px);\n            box-shadow: 0 8px 20px rgba(0,0,0,0.08);\n        \x7d\n        \n        .stat-label \x7b\n            font-size: 0.875rem;\n            color: #6b7280;\n            font-weight: 500;\n            text-transform: uppercase;\n            letter-spacing: 0.5px;\n            margin-bottom: 0.5rem;\n        \x7d\n        \n        .stat-value \x7b\n            font-size: 2rem;\n            font-weight: 700;\n            color: #1a1a1a;\n        \x7d\n        \n        .stat-unit \x7b\n            font-size: 1rem;\n            color: #6b7280;\n            font-weight: 500;\n        \x7d\n        \n        .backend-display \x7b\n            background: linear-gradient(135deg, "

/-- Literal chunk 5 of the HTML template f-string in generate_html_report. -/
def htmlChunk5 : String :=
  "15, "

/-- Literal chunk 6 of the HTML template f-string in generate_html_report. -/
def htmlChunk6 : String :=
  "05);\n            border: 2px solid "

/-- Literal chunk 7 of the HTML template f-string in generate_html_report. -/
def htmlChunk7 : String :=
  "40;\n            padding: 1.5rem;\n            border-radius: 16px;\n            display: flex;\n            align-items: center;\n            gap: 1rem;\n            margin-bottom: 2rem;\n        \x7d\n        \n        .backend-icon \x7b\n            font-size: 3rem;\n        \x7d\n        \n        .backend-info \x7b\n            flex: 1;\n        \x7d\n        \n        .backend-name \x7b\n            font-size: 1.5rem;\n            font-weight: 700;\n            color: "

/-- Literal chunk 8 of the HTML template f-string in generate_html_report. -/
def htmlChunk8 : String :=
  ";\n            margin-bottom: 0.25rem;\n        \x7d\n        \n        .backend-desc \x7b\n            color: #6b7280;\n            font-size: 0.95rem;\n        \x7d\n        \n        .gpu-grid \x7b\n            display: grid;\n            gap: 1rem;\n            margin-top: 1.5rem;\n        \x7d\n        \n        .gpu-card \x7b\n            background: linear-gradient(135deg, #f8f9fa, #ffffff);\n            padding: 1.25rem;\n            border-radius: 12px;\n            display: flex;\n            align-items: center;\n            gap: 1rem;\n            border: 1px solid #e5e7eb;\n            transition: all 0.3s ease;\n        \x7d\n        \n        .gpu-card:hover \x7b\n            border-color: #76B900;\n            box-shadow: 0 4px 12px rgba(118, 185, 0, 0.15);\n        \x7d\n        \n        .gpu-icon \x7b\n            font-size: 2rem;\n        \x7d\n        \n        .gpu-name \x7b\n            font-weight: 600;\n            color: #1a1a1a;\n            font-size: 1.1rem;\n        \x7d\n        \n        .gpu-vram \x7b\n            color: #6b7280;\n            font-size: 0.9rem;\n        \x7d\n        \n        .models-grid \x7b\n            display: grid;\n            gap: 1rem;\n        \x7d\n        \n        .model-card \x7b\n            background: linear-gradient(135deg, #ffffff, #f8f9fa);\n            padding: 1.25rem;\n            border-radius: 12px;\n            display: flex;\n            align-items: center;\n            gap: 1rem;\n            border: 1px solid #e5e7eb;\n            transition: all 0.3s ease;\n        \x7d\n        \n        .model-card:hover \x7b\n            border-color: "

/-- Literal chunk 9 of the HTML template f-string in generate_html_report. -/
def htmlChunk9 : String :=
  ";\n            box-shadow: 0 4px 12px "

/-- Literal chunk 10 of the HTML template f-string in generate_html_report. -/
def htmlChunk10 : String :=
  "30;\n            transform: translateX(4px);\n        \x7d\n        \n        .model-icon \x7b\n            font-size: 2rem;\n        \x7d\n        \n        .model-name \x7b\n            font-weight: 700;\n            color: #1a1a1a;\n            font-size: 1.1rem;\n            margin-bottom: 0.25rem;\n        \x7d\n        \n        .model-desc \x7b\n            color: #6b7280;\n            font-size: 0.9rem;\n        \x7d\n        \n        .warning-box \x7b\n            background: linear-gradient(135deg, #FEF3C7, #FDE68A);\n            border-left: 4px solid #F59E0B;\n            padding: 1.25rem;\n            border-radius: 12px;\n            margin-top: 1.5rem;\n            display: flex;\n            gap: 1rem;\n        \x7d\n        \n        .warning-icon \x7b\n            font-size: 1.5rem;\n        \x7d\n        \n        .warning-content \x7b\n            flex: 1;\n        \x7d\n        \n        .warning-title \x7b\n            font-weight: 700;\n            color: #92400E;\n            margin-bottom: 0.5rem;\n        \x7d\n        \n        .warning-text \x7b\n            color: #78350F;\n            font-size: 0.95rem;\n            line-height: 1.6;\n        \x7d\n        \n        .footer \x7b\n            text-align: center;\n            color: rgba(255,255,255,0.8);\n            margin-top: 2rem;\n            font-size: 0.9rem;\n        \x7d\n        \n        .footer a \x7b\n            color: white;\n            text-decoration: none;\n            font-weight: 600;\n        \x7d\n        \n        @keyframes fadeInDown \x7b\n            from \x7b\n                opacity: 0;\n                transform: translateY(-20px);\n            \x7d\n            to \x7b\n                opacity: 1;\n                transform: translateY(0);\n            \x7d\n        \x7d\n        \n        @keyframes fadeInUp \x7b\n            from \x7b\n                opacity: 0;\n                transform: translateY(20px);\n            \x7d\n            to \x7b\n                opacity: 1;\n                transform: translateY(0);\n            \x7d\n        \x7d\n        \n        @media (max-width: 768px) \x7b\n            body \x7b\n                padding: 1rem;\n            \x7d\n            \n            .header h1 \x7b\n                font-size: 2rem;\n            \x7d\n            \n            .report-card \x7b\n                padding: 1.5rem;\n            \x7d\n            \n            .stats-grid \x7b\n                grid-template-columns: 1fr;\n            \x7d\n        \x7d\n    </style>\n</head>\n<body>\n    <div class=\"container\">\n        <div class=\"header\">\n            <h1>🚀 Hardware Analysis Report</h1>\n            <div class=\"subtitle\">LLM Model Selection & Capacity Assessment</div>\n        </div>\n        \n        <!-- System Overview Card -->\n        <div class=\"report-card\">\n            <div class=\"card-header\">\n                <div class=\"card-title\">\n                    <span class=\"card-icon\">💻</span>\n                    System Overview\n                </div>\n                <div class=\"badge tier-badge\">"

/-- Literal chunk 11 of the HTML template f-string in generate_html_report. -/
def htmlChunk11 : String :=
  " Tier</div>\n            </div>\n            \n            <div class=\"stats-grid\">\n                <div class=\"stat-box\">\n                    <div class=\"stat-label\">Operating System</div>\n                    <div class=\"stat-value\">"

/-- Literal chunk 12 of the HTML template f-string in generate_html_report. -/
def htmlChunk12 : String :=
  "</div>\n                </div>\n                <div class=\"stat-box\">\n                    <div class=\"stat-label\">Total RAM</div>\n                    <div class=\"stat-value\">"

/-- Literal chunk 13 of the HTML template f-string in generate_html_report. -/
def htmlChunk13 : String :=
  " <span class=\"stat-unit\">GB</span></div>\n                </div>\n                <div class=\"stat-box\">\n                    <div class=\"stat-label\">Usable AI Memory</div>\n                    <div class=\"stat-value\">"

/-- Literal chunk 14 of the HTML template f-string in generate_html_report. -/
def htmlChunk14 : String :=
  " <span class=\"stat-unit\">GB</span></div>\n                </div>\n                <div class=\"stat-box\">\n                    <div class=\"stat-label\">Max Model Size</div>\n                    <div class=\"stat-value\">~"

/-- Literal chunk 15 of the HTML template f-string in generate_html_report. -/
def htmlChunk15 : String :=
  " <span class=\"stat-unit\">B</span></div>\n                </div>\n            </div>\n            \n            <div class=\"backend-display\">\n                <div class=\"backend-icon\">"

/-- Literal chunk 16 of the HTML template f-string in generate_html_report. -/
def htmlChunk16 : String :=
  "</div>\n                <div class=\"backend-info\">\n                    <div class=\"backend-name\">"

/-- Literal chunk 17 of the HTML template f-string in generate_html_report. -/
def htmlChunk17 : String :=
  "</div>\n                    <div class=\"backend-desc\">Detected compute backend for AI workloads</div>\n                </div>\n            </div>\n            \n            "

/-- Literal chunk 18 of the HTML template f-string in generate_html_report. -/
def htmlChunk18 : String :=
  "\n        </div>\n        \n        <!-- Model Recommendations Card -->\n        <div class=\"report-card\">\n            <div class=\"card-header\">\n                <div class=\"card-title\">\n                    <span class=\"card-icon\">🎯</span>\n                    Recommended Models\n                </div>\n                <div class=\"badge\" style=\"background: #E0E7FF; color: #4338CA;\">4-bit Quantization</div>\n            </div>\n            \n            <div class=\"models-grid\">\n                "

/-- Literal chunk 19 of the HTML template f-string in generate_html_report. -/
def htmlChunk19 : String :=
  "\n            </div>\n            \n            "

/-- Literal chunk 20 of the HTML template f-string in generate_html_report. -/
def htmlChunk20 : String :=
  "\n        </div>\n        \n        <div class=\"footer\">\n            Generated on "

/-- Literal chunk 21 of the HTML template f-string in generate_html_report. -/
def htmlChunk21 : String :=
  " | <a href=\"https://github.com\">LLM Model Selection Tool</a>\n        </div>\n    </div>\n</body>\n</html>"

/-- Literal chunk 0 of the gpu-card f-string (html_report.py lines 47-55). -/
def gpuCardChunk0 : String :=
  "\n            <div class=\"gpu-card\">\n                <div class=\"gpu-icon\">🎮</div>\n                <div class=\"gpu-info\">\n                    <div class=\"gpu-name\">"

/-- Literal chunk 1 of the gpu-card f-string (html_report.py lines 47-55). -/
def gpuCardChunk1 : String :=
  "</div>\n                    <div class=\"gpu-vram\">"

/-- Literal chunk 2 of the gpu-card f-string (html_report.py lines 47-55). -/
def gpuCardChunk2 : String :=
  " GB VRAM</div>\n                </div>\n            </div>\n            "

/-- Literal chunk 0 of the model-card f-string (html_report.py lines 61-69). -/
def modelCardChunk0 : String :=
  "\n            <div class=\"model-card\">\n                <div class=\"model-icon\">🤖</div>\n                <div class=\"model-info\">\n                    <div class=\"model-name\">"

/-- Literal chunk 1 of the model-card f-string (html_report.py lines 61-69). -/
def modelCardChunk1 : String :=
  "</div>\n                    <div class=\"model-desc\">"

/-- Literal chunk 2 of the model-card f-string (html_report.py lines 61-69). -/
def modelCardChunk2 : String :=
  "</div>\n                </div>\n            </div>\n            "

/-- The CPU advisory warning panel literal (html_report.py lines 481-491). -/
def warningBoxHtml : String :=
  "\n            <div class=\"warning-box\">\n                <div class=\"warning-icon\">⚠️</div>\n                <div class=\"warning-content\">\n                    <div class=\"warning-title\">CPU Performance Notice</div>\n                    <div class=\"warning-text\">\n                        CPU inference will be significantly slower than GPU/MPS acceleration. \n                        Consider using GGUF format models with llama.cpp for better CPU performance.\n                    </div>\n                </div>\n            </div>\n            "

/-- The backend_info lookup with its .get default (html_report.py lines 34-41):
(backend_name, backend_icon, backend_color). -/
def backendInfo (device_type : String) : String × String × String :=
  if device_type = "cuda" then ("NVIDIA CUDA", "🎮", "#76B900")
  else if device_type = "mps" then ("Apple Metal (MPS)", "🍎", "#147EFB")
  else if device_type = "cpu" then ("CPU Only", "💻", "#FF6B6B")
  else ("Unknown", "❓", "#888888")

/-- The backend_name component of backendInfo. -/
def backendName (device_type : String) : String := (backendInfo device_type).1

/-- The backend_icon component of backendInfo. -/
def backendIcon (device_type : String) : String := (backendInfo device_type).2.1

/-- The backend_color component of backendInfo. -/
def backendColor (device_type : String) : String := (backendInfo device_type).2.2

/-- The performance tier badge name (html_report.py lines 72-86). -/
def tierName (vram_gb : ℚ) : String :=
  if vram_gb ≥ 48 then "Enterprise"
  else if vram_gb ≥ 24 then "Professional"
  else if vram_gb ≥ 16 then "Advanced"
  else if vram_gb ≥ 8 then "Standard"
  else "Entry"

/-- The tier_color selected alongside the tier badge (lines 72-86). -/
def tierColor (vram_gb : ℚ) : String :=
  if vram_gb ≥ 48 then "#9333EA"
  else if vram_gb ≥ 24 then "#3B82F6"
  else if vram_gb ≥ 16 then "#10B981"
  else if vram_gb ≥ 8 then "#F59E0B"
  else "#EF4444"

/-- Round-half-to-even of a rational to an integer, the rounding Python
string formatting applies for a fixed-point format. -/
def roundHalfEven (x : ℚ) : ℤ :=
  if x - ⌊x⌋ < 1/2 then ⌊x⌋
  else if 1/2 < x - ⌊x⌋ then ⌊x⌋ + 1
  else if ⌊x⌋ % 2 = 0 then ⌊x⌋ else ⌊x⌋ + 1

/-- Decimal rendering of n / 10^p with exactly p fractional digits. -/
def natFixedStr (p : ℕ) (n : ℕ) : String :=
  let frac := toString (n % 10 ^ p)
  toString (n / 10 ^ p) ++ "." ++
    String.mk (List.replicate (p - frac.length) '0') ++ frac

/-- Python fixed-point formatting "{q:.pf}" over the exact rational value. -/
def fmtFixed (p : ℕ) (q : ℚ) : String :=
  let s := roundHalfEven (q * (10 : ℚ) ^ p)
  if s < 0 then "-" ++ natFixedStr p s.natAbs else natFixedStr p s.toNat

/-- One gpu-card entry of gpu_html (html_report.py lines 46-55). -/
def gpuCardHtml (g : GpuInfo) : String :=
  gpuCardChunk0 ++ g.name ++ gpuCardChunk1 ++ fmtFixed 2 g.vram ++ gpuCardChunk2

/-- The gpu_html accumulation (lines 44-55): empty when gpu_details is
None or the empty list. -/
def gpuHtml (gpu_details : Option (List GpuInfo)) : String :=
  match gpu_details with
  | none => ""
  | some l => String.join (l.map gpuCardHtml)

/-- One model-card entry of models_html (lines 60-69). -/
def modelCardHtml (m : String × String) : String :=
  modelCardChunk0 ++ m.1 ++ modelCardChunk1 ++ m.2 ++ modelCardChunk2

/-- The models_html accumulation (lines 57-69). -/
def modelsHtml (recommended_models : Option (List (String × String))) : String :=
  match recommended_models with
  | none => ""
  | some l => String.join (l.map modelCardHtml)

/-- The conditional device section of the template (line 464):
the gpu-grid div wrapping gpu_html when gpu_html is non-empty. -/
def gpuGridSlot (gpu_html : String) : String :=
  if gpu_html ≠ "" then
    "<div class=\"gpu-grid\">" ++ gpu_html ++ "</div>"
  else ""

/-- The conditional warning panel of the template (lines 481-492):
emitted exactly when device_type == "cpu". -/
def warningSlot (device_type : String) : String :=
  if device_type = "cpu" then warningBoxHtml else ""

/-- Embedding of generate_html_report (html_report.py lines 8-502): the
f-string template as the concatenation of its literal chunks and its
interpolated fields in source order.  The generation timestamp, the one
non-deterministic ingredient, is passed in as `timestamp`. -/
def generateHtmlReport (system : String) (ram_gb : ℚ) (device_type : String)
    (vram_gb : ℚ) (max_params : ℤ) (gpu_details : Option (List GpuInfo))
    (recommended_models : Option (List (String × String)))
    (timestamp : String) : String :=
  htmlChunk0 ++ tierColor vram_gb ++ htmlChunk1 ++ tierColor vram_gb ++
  htmlChunk2 ++ tierColor vram_gb ++ htmlChunk3 ++ backendColor device_type ++
  htmlChunk4 ++ backendColor device_type ++ htmlChunk5 ++
  backendColor device_type ++ htmlChunk6 ++ backendColor device_type ++
  htmlChunk7 ++ backendColor device_type ++ htmlChunk8 ++
  backendColor device_type ++ htmlChunk9 ++ backendColor device_type ++
  htmlChunk10 ++ tierName vram_gb ++ htmlChunk11 ++ system ++ htmlChunk12 ++
  fmtFixed 1 ram_gb ++ htmlChunk13 ++ fmtFixed 1 vram_gb ++ htmlChunk14 ++
  toString max_params ++ htmlChunk15 ++ backendIcon device_type ++
  htmlChunk16 ++ backendName device_type ++ htmlChunk17 ++
  gpuGridSlot (gpuHtml gpu_details) ++ htmlChunk18 ++
  modelsHtml recommended_models ++ htmlChunk19 ++ warningSlot device_type ++
  htmlChunk20 ++ timestamp ++ htmlChunk21

/-- The observable outcome of one run of main (ll_model_selection.py
lines 191-227): the rendered report, the process exit status, and whether
the file write and the browser launch went through. -/
structure MainOutcome where
  html : String
  exit_code : ℕ
  wrote_file : Bool
  opened_browser : Bool
deriving DecidableEq

/-- Embedding of main (lines 191-227).  The probe outcomes, the file-write
outcome and the browser-launch outcome are inputs; the try/except around
write_text and webbrowser.open catches every exception class, so both
failure branches fall through to a normal (exit 0) termination.  An
uncaught exception would surface as `.error`. -/
def mainRun (cuda : CudaOutcome) (mps : MpsOutcome) (ram_gb : ℚ)
    (system : String) (write_result : Except PyErr Unit)
    (browser_result : Except PyErr Unit) (timestamp : String) :
    Except PyErr MainOutcome :=
  let hw := getHardwareCapacity cuda mps ram_gb system
  let recs := recommendModels hw.vram_gb hw.device_type
  let html := generateHtmlReport hw.system hw.ram_gb hw.device_type
    hw.vram_gb recs.1
    (if hw.gpu_details = [] then none else some hw.gpu_details)
    (some recs.2) timestamp
  match write_result with
  | .error _ => .ok { html := html, exit_code := 0, wrote_file := false,
                      opened_browser := false }
  | .ok _ =>
    match browser_result with
    | .error _ => .ok { html := html, exit_code := 0, wrote_file := true,
                        opened_browser := false }
    | .ok _ => .ok { html := html, exit_code := 0, wrote_file := true,
                     opened_browser := true }

/-- String containment: doc has sub as a contiguous substring. -/
def containsStr (doc sub : String) : Prop :=
  ∃ a b : String, doc = a ++ sub ++ b


/-- Spec-side definition for the refinement claim C10 (modelled from the
claim): the model list that accompanies each tier badge name. -/
def specModelsForTier : String → List (String × String)
  | "Enterprise" => enterpriseModels
  | "Professional" => professionalModels
  | "Advanced" => advancedModels
  | "Standard" => standardModels
  | _ => entryModels

/-- Spec-side definition for C8 (modelled from the claim): the report
document built with no device section at all. -/
def htmlReportWithoutDeviceSection (system : String) (ram_gb : ℚ)
    (device_type : String) (vram_gb : ℚ) (max_params : ℤ)
    (recommended_models : Option (List (String × String)))
    (timestamp : String) : String :=
  htmlChunk0 ++ tierColor vram_gb ++ htmlChunk1 ++ tierColor vram_gb ++
  htmlChunk2 ++ tierColor vram_gb ++ htmlChunk3 ++ backendColor device_type ++
  htmlChunk4 ++ backendColor device_type ++ htmlChunk5 ++
  backendColor device_type ++ htmlChunk6 ++ backendColor device_type ++
  htmlChunk7 ++ backendColor device_type ++ htmlChunk8 ++
  backendColor device_type ++ htmlChunk9 ++ backendColor device_type ++
  htmlChunk10 ++ tierName vram_gb ++ htmlChunk11 ++ system ++ htmlChunk12 ++
  fmtFixed 1 ram_gb ++ htmlChunk13 ++ fmtFixed 1 vram_gb ++ htmlChunk14 ++
  toString max_params ++ htmlChunk15 ++ backendIcon device_type ++
  htmlChunk16 ++ backendName device_type ++ htmlChunk17 ++ htmlChunk18 ++
  modelsHtml recommended_models ++ htmlChunk19 ++ warningSlot device_type ++
  htmlChunk20 ++ timestamp ++ htmlChunk21

/-- Spec-side definition for C9 (modelled from the claim): the report
document built with no warning panel at all. -/
def htmlReportWithoutWarningPanel (system : String) (ram_gb : ℚ)
    (device_type : String) (vram_gb : ℚ) (max_params : ℤ)
    (gpu_details : Option (List GpuInfo))
    (recommended_models : Option (List (String × String)))
    (timestamp : String) : String :=
  htmlChunk0 ++ tierColor vram_gb ++ htmlChunk1 ++ tierColor vram_gb ++
  htmlChunk2 ++ tierColor vram_gb ++ htmlChunk3 ++ backendColor device_type ++
  htmlChunk4 ++ backendColor device_type ++ htmlChunk5 ++
  backendColor device_type ++ htmlChunk6 ++ backendColor device_type ++
  htmlChunk7 ++ backendColor device_type ++ htmlChunk8 ++
  backendColor device_type ++ htmlChunk9 ++ backendColor device_type ++
  htmlChunk10 ++ tierName vram_gb ++ htmlChunk11 ++ system ++ htmlChunk12 ++
  fmtFixed 1 ram_gb ++ htmlChunk13 ++ fmtFixed 1 vram_gb ++ htmlChunk14 ++
  toString max_params ++ htmlChunk15 ++ backendIcon device_type ++
  htmlChunk16 ++ backendName device_type ++ htmlChunk17 ++
  gpuGridSlot (gpuHtml gpu_details) ++ htmlChunk18 ++
  modelsHtml recommended_models ++ htmlChunk19 ++ htmlChunk20 ++
  timestamp ++ htmlChunk21

/-- Proposition: the CUDA probe produced no GPU device (an exception
before detection, an unavailable backend, or an empty device list —
whether or not the loop was cut short by a caught exception). -/
def gpuNotDetected (c : CudaOutcome) : Prop :=
  ∀ devs i, c = .available devs i → devs = []

/-- Proposition: the MPS probe did not report a unified-memory accelerator
(an exception or is_available() = False). -/
def mpsNotDetected (m : MpsOutcome) : Prop := m ≠ .ok true

/-- Closed form of recommendMaxParams: the clamp before int() and the
truncation toward zero collapse to a floor clamped to a minimum of 2. -/
lemma recommendMaxParams_eq (v : ℚ) :
    recommendMaxParams v = max 2 ⌊(v - 2) / (3 / 4 : ℚ)⌋ := by
  have hpos : quant4bitGbPerBillion > 0 := by norm_num [quant4bitGbPerBillion]
  have hq : (v - contextOverheadGb) / quant4bitGbPerBillion
      = (v - 2) / (3 / 4 : ℚ) := by
    norm_num [contextOverheadGb, quant4bitGbPerBillion]
  rw [recommendMaxParams, maxParamsClamped, maxParamsRaw, if_pos hpos, hq]
  by_cases h : (v - 2) / (3 / 4 : ℚ) < 2
  · rw [if_pos h, pyInt, if_pos (by norm_num : (0:ℚ) ≤ 2)]
    have h2 : ⌊(v - 2) / (3 / 4 : ℚ)⌋ < 2 :=
      Int.floor_lt.mpr (by exact_mod_cast h)
    have hf : ⌊(2:ℚ)⌋ = 2 := by norm_num
    rw [hf]
    exact (max_eq_left h2.le).symm
  · rw [if_neg h]
    push_neg at h
    have h0 : (0:ℚ) ≤ (v - 2) / (3 / 4 : ℚ) := le_trans (by norm_num) h
    rw [pyInt, if_pos h0]
    have h2 : (2:ℤ) ≤ ⌊(v - 2) / (3 / 4 : ℚ)⌋ :=
      Int.le_floor.mpr (by exact_mod_cast h)
    exact (max_eq_right h2).symm

/-- C1: for every vram_gb input v, recommend_models returns
maxParamsBillion = floor((v - 2.0) / 0.75) clamped to a minimum of 2;
hence the result is at least 2 whenever v ≥ 0, and at v = 18.0 it is 21. -/
theorem claim1_maxParamsFormula :
    (∀ v : ℚ, recommendMaxParams v = max 2 ⌊(v - 2.0) / (0.75 : ℚ)⌋) ∧
    (∀ v : ℚ, 0 ≤ v → 2 ≤ recommendMaxParams v) ∧
    recommendMaxParams 18.0 = 21 := by
  have hcast : ∀ v : ℚ, (v - 2.0) / (0.75 : ℚ) = (v - 2) / (3 / 4 : ℚ) := by
    intro v; norm_num
  refine ⟨fun v => ?_, fun v hv => ?_, ?_⟩
  · rw [recommendMaxParams_eq v, hcast v]
  · rw [recommendMaxParams_eq v]; exact le_max_left _ _
  · have h18 : (18.0 : ℚ) = 18 := by norm_num
    rw [h18, recommendMaxParams_eq 18,
      show ((18:ℚ) - 2) / (3 / 4 : ℚ) = 64 / 3 by norm_num,
      show ⌊(64:ℚ) / 3⌋ = 21 by rw [Int.floor_eq_iff]; norm_num]
    decide

/-- Witness for C1 at v = 18.0. -/
theorem claim1_maxParamsFormula_witness :
    (0:ℚ) ≤ 18.0 ∧ 2 ≤ recommendMaxParams 18.0 :=
  ⟨by norm_num, claim1_maxParamsFormula.2.1 18.0 (by norm_num)⟩

/-- C2: the tier badge brackets are right-open intervals with thresholds
48, 24, 16, 8, and the boundary examples evaluate as the spec states. -/
theorem claim2_tierBoundaries :
    (∀ v : ℚ, 48 ≤ v → tierName v = "Enterprise") ∧
    (∀ v : ℚ, 24 ≤ v → v < 48 → tierName v = "Professional") ∧
    (∀ v : ℚ, 16 ≤ v → v < 24 → tierName v = "Advanced") ∧
    (∀ v : ℚ, 8 ≤ v → v < 16 → tierName v = "Standard") ∧
    (∀ v : ℚ, v < 8 → tierName v = "Entry") ∧
    tierName 48.0 = "Enterprise" ∧ tierName 47.99 = "Professional" ∧
    tierName 24.0 = "Professional" ∧ tierName 8.0 = "Standard" ∧
    tierName 7.99 = "Entry" := by
  refine ⟨fun v h => ?_, fun v h1 h2 => ?_, fun v h1 h2 => ?_,
    fun v h1 h2 => ?_, fun v h => ?_, ?_, ?_, ?_, ?_, ?_⟩
  · rw [tierName, if_pos h]
  · rw [tierName, if_neg (not_le.mpr h2), if_pos h1]
  · rw [tierName, if_neg (not_le.mpr (h2.trans (by norm_num))),
      if_neg (not_le.mpr h2), if_pos h1]
  · rw [tierName, if_neg (not_le.mpr (h2.trans (by norm_num))),
      if_neg (not_le.mpr (h2.trans (by norm_num))), if_neg (not_le.mpr h2),
      if_pos h1]
  · rw [tierName, if_neg (not_le.mpr (h.trans (by norm_num))),
      if_neg (not_le.mpr (h.trans (by norm_num))),
      if_neg (not_le.mpr (h.trans (by norm_num))), if_neg (not_le.mpr h)]
  · norm_num [tierName]
  · norm_num [tierName]
  · norm_num [tierName]
  · norm_num [tierName]
  · norm_num [tierName]

/-- Witness for C2, one value inside each bracket. -/
theorem claim2_tierBoundaries_witness :
    tierName 50 = "Enterprise" ∧ tierName 30 = "Professional" ∧
    tierName 20 = "Advanced" ∧ tierName 10 = "Standard" ∧
    tierName 5 = "Entry" :=
  ⟨claim2_tierBoundaries.1 50 (by norm_num),
   claim2_tierBoundaries.2.1 30 (by norm_num) (by norm_num),
   claim2_tierBoundaries.2.2.1 20 (by norm_num) (by norm_num),
   claim2_tierBoundaries.2.2.2.1 10 (by norm_num) (by norm_num),
   claim2_tierBoundaries.2.2.2.2.1 5 (by norm_num)⟩

/-- C3: when neither a GPU nor a unified-memory accelerator is detected,
the probe returns device_type = "cpu" and vram_gb = ram_gb * 0.5 exactly;
at ram_gb = 16.0 this gives vram_gb = 8.0, maxParamsBillion = 8 and the
Standard tier. -/
theorem claim3_cpuFallback :
    (∀ (c : CudaOutcome) (m : MpsOutcome) (ram_gb : ℚ) (system : String),
        gpuNotDetected c → mpsNotDetected m →
        (getHardwareCapacity c m ram_gb system).device_type = "cpu" ∧
        (getHardwareCapacity c m ram_gb system).vram_gb = ram_gb * 0.5) ∧
    ((getHardwareCapacity .notAvailable (.ok false) 16.0 "Linux").vram_gb
      = 8.0 ∧
     recommendMaxParams 8.0 = 8 ∧ tierName 8.0 = "Standard") := by
  constructor
  · intro c m ram_gb system hc hm
    have hm' : m = .ok false ∨ ∃ e, m = .error e := by
      rcases m with e | b
      · exact .inr ⟨e, rfl⟩
      · cases b
        · exact .inl rfl
        · exact absurd rfl hm
    have hcpu : cpuUsableMemoryRatio = 0.5 := by norm_num [cpuUsableMemoryRatio]
    rcases c with e | _ | ⟨devs, i⟩
    · rcases hm' with h | ⟨e2, h⟩ <;> subst h <;>
        simp [getHardwareCapacity, hcpu]
    · rcases hm' with h | ⟨e2, h⟩ <;> subst h <;>
        simp [getHardwareCapacity, hcpu]
    · have hd : devs = [] := hc devs i rfl
      subst hd
      rcases hm' with h | ⟨e2, h⟩ <;> subst h <;>
        simp [getHardwareCapacity, cudaVram, cudaDetails, hcpu]
  · refine ⟨?_, ?_, ?_⟩
    · have hcpu : cpuUsableMemoryRatio = 0.5 := by
        norm_num [cpuUsableMemoryRatio]
      simp [getHardwareCapacity, hcpu]
      norm_num
    · have h8 : (8.0 : ℚ) = 8 := by norm_num
      rw [h8, recommendMaxParams_eq 8,
        show ((8:ℚ) - 2) / (3 / 4 : ℚ) = 8 by norm_num,
        show ⌊(8:ℚ)⌋ = 8 by norm_num]
      decide
    · norm_num [tierName]

/-- Witness for C3 at (no CUDA, no MPS, ram 16.0). -/
theorem claim3_cpuFallback_witness :
    (getHardwareCapacity .notAvailable (.ok false) 16.0 "Linux").device_type
      = "cpu" ∧
    (getHardwareCapacity .notAvailable (.ok false) 16.0 "Linux").vram_gb
      = 16.0 * 0.5 :=
  claim3_cpuFallback.1 .notAvailable (.ok false) 16.0 "Linux"
    (fun devs i h => by simp at h) (by simp [mpsNotDetected])

/-- C4 counterexample: one GPU device reporting 0 bytes of memory is
present, yet the probe does not short-circuit on it: the MPS and CPU
branches run (vram_gb == 0 is the fall-through test, not device presence)
and the returned backend is "cpu", not "cuda". -/
theorem claim4_counterexample :
    (getHardwareCapacity
        (.available [{ name := "Phantom GPU", total_memory := 0 }] none)
        (.ok false) 16.0 "Linux").device_type = "cpu" ∧
    ¬ (getHardwareCapacity
        (.available [{ name := "Phantom GPU", total_memory := 0 }] none)
        (.ok false) 16.0 "Linux").device_type = "cuda" := by
  constructor
  · simp [getHardwareCapacity, cudaVram, cudaDetails, bytesToGb]
  · simp [getHardwareCapacity, cudaVram, cudaDetails, bytesToGb]

/-- C4 amended: whenever one or more GPU-class accelerators are present
and their reported memories sum to a positive value, the probe returns
backendKind = "cuda", usableMemoryGB equal to the sum of the devices'
reported dedicated memory, and the device list with each device's name and
memory; the unified-memory and CPU branches are not taken (the result does
not depend on the MPS outcome or the RAM size). -/
theorem claim4_gpuShortCircuit (devs : List GpuDevice) (m : MpsOutcome)
    (ram_gb : ℚ) (system : String) (hpos : 0 < cudaVram devs) :
    (getHardwareCapacity (.available devs none) m ram_gb system).device_type
      = "cuda" ∧
    (getHardwareCapacity (.available devs none) m ram_gb system).vram_gb
      = cudaVram devs ∧
    (getHardwareCapacity (.available devs none) m ram_gb system).gpu_details
      = cudaDetails devs := by
  have hne : cudaVram devs ≠ 0 := ne_of_gt hpos
  refine ⟨?_, ?_, ?_⟩ <;> simp [getHardwareCapacity, hne]

/-- Witness for the amended C4 with a 12 GiB device. -/
theorem claim4_gpuShortCircuit_witness :
    (0:ℚ) < cudaVram
      [{ name := "NVIDIA GeForce RTX 3060", total_memory := 12884901888 }] ∧
    (getHardwareCapacity
        (.available [{ name := "NVIDIA GeForce RTX 3060",
                       total_memory := 12884901888 }] none)
        (.ok false) 32.0 "Windows").device_type = "cuda" :=
  ⟨by norm_num [cudaVram, bytesToGb],
   (claim4_gpuShortCircuit
      [{ name := "NVIDIA GeForce RTX 3060", total_memory := 12884901888 }]
      (.ok false) 32.0 "Windows"
      (by norm_num [cudaVram, bytesToGb])).1⟩

/-- C5 counterexample: an exception raised by a GPU probe query mid-loop,
after a 12 GiB device was already accumulated, is caught but is NOT
treated as the backend being absent and the probe does NOT fall through:
the returned backend is "cuda", while the same MPS outcome with the CUDA
backend genuinely absent yields "mps". -/
theorem claim5_counterexample :
    (getHardwareCapacity
        (.available [{ name := "NVIDIA A100", total_memory := 12884901888 }]
          (some { msg := "get_device_properties failed" }))
        (.ok true) 16.0 "Linux").device_type = "cuda" ∧
    (getHardwareCapacity .notAvailable (.ok true) 16.0 "Linux").device_type
      = "mps" := by
  constructor
  · norm_num [getHardwareCapacity, cudaVram, cudaDetails, bytesToGb]
  · norm_num [getHardwareCapacity, mpsUsableMemoryRatio]

/-- C5 amended: no probe exception propagates out of the hardware probe —
the run always completes and produces a report.  An exception raised
before the GPU backend accumulated anything (is_available() failing, or
the device loop cut short while the accumulated sum is still zero) is
treated as that backend being absent, as is every unified-memory probe
exception; but a mid-loop exception after a positive partial sum only
stops further accumulation: the devices already processed keep the GPU
backend selected and the probe does not fall through. -/
theorem claim5_probeExceptionsCaught :
    (∀ (e : PyErr) (m : MpsOutcome) (ram_gb : ℚ) (system : String),
        getHardwareCapacity (.raised e) m ram_gb system =
          getHardwareCapacity .notAvailable m ram_gb system) ∧
    (∀ (devs : List GpuDevice) (e : PyErr) (m : MpsOutcome) (ram_gb : ℚ)
        (system : String),
        getHardwareCapacity (.available devs (some e)) m ram_gb system =
          getHardwareCapacity (.available devs none) m ram_gb system) ∧
    (∀ (devs : List GpuDevice) (e : PyErr) (m : MpsOutcome) (ram_gb : ℚ)
        (system : String), cudaVram devs = 0 →
        (getHardwareCapacity (.available devs (some e)) m ram_gb
            system).device_type =
          (getHardwareCapacity .notAvailable m ram_gb system).device_type ∧
        (getHardwareCapacity (.available devs (some e)) m ram_gb
            system).vram_gb =
          (getHardwareCapacity .notAvailable m ram_gb system).vram_gb) ∧
    (∀ (c : CudaOutcome) (e : PyErr) (ram_gb : ℚ) (system : String),
        getHardwareCapacity c (.error e) ram_gb system =
          getHardwareCapacity c (.ok false) ram_gb system) ∧
    (∀ (c : CudaOutcome) (m : MpsOutcome) (ram_gb : ℚ) (system : String)
        (w b : Except PyErr Unit) (ts : String),
        ∃ out : MainOutcome, mainRun c m ram_gb system w b ts = .ok out) := by
  refine ⟨fun e m ram_gb system => rfl,
    fun devs e m ram_gb system => rfl,
    fun devs e m ram_gb system h => ?_,
    fun c e ram_gb system => rfl,
    fun c m ram_gb system w b ts => ?_⟩
  · rcases m with e2 | b
    · constructor <;> simp [getHardwareCapacity, h]
    · cases b <;> constructor <;> simp [getHardwareCapacity, h]
  · cases w
    · exact ⟨_, rfl⟩
    · cases b
      · exact ⟨_, rfl⟩
      · exact ⟨_, rfl⟩

/-- Witness for the amended C5: a loop interrupted before accumulating
anything behaves like an absent backend. -/
theorem claim5_probeExceptionsCaught_witness :
    cudaVram [] = 0 ∧
    (getHardwareCapacity
        (.available [] (some { msg := "device_count failed" }))
        (.ok false) 16.0 "Linux").device_type =
      (getHardwareCapacity .notAvailable (.ok false) 16.0 "Linux").device_type :=
  ⟨rfl, (claim5_probeExceptionsCaught.2.2.1 []
      { msg := "device_count failed" } (.ok false) 16.0 "Linux" rfl).1⟩

/-- C6: main always exits 0: for every combination of probe outcomes,
file-write outcome and browser outcome, mainRun terminates normally with
exit code 0 (write and browser failures are caught). -/
theorem claim6_mainAlwaysExitsZero :
    ∀ (c : CudaOutcome) (m : MpsOutcome) (ram_gb : ℚ) (system : String)
      (w b : Except PyErr Unit) (ts : String),
      ∃ out : MainOutcome,
        mainRun c m ram_gb system w b ts = .ok out ∧ out.exit_code = 0 := by
  intro c m ram_gb system w b ts
  cases w
  · exact ⟨_, rfl, rfl⟩
  · cases b
    · exact ⟨_, rfl, rfl⟩
    · exact ⟨_, rfl, rfl⟩

/-- C7: the returned maxParamsBillion is monotonically non-decreasing in
the usable-memory input. -/
theorem claim7_maxParamsMonotone (v1 v2 : ℚ) (h : v1 ≤ v2) :
    recommendMaxParams v1 ≤ recommendMaxParams v2 := by
  rw [recommendMaxParams_eq, recommendMaxParams_eq]
  have hd : (v1 - 2) / (3 / 4 : ℚ) ≤ (v2 - 2) / (3 / 4 : ℚ) := by
    exact (div_le_div_iff_of_pos_right (by norm_num)).mpr (by linarith)
  exact max_le_max le_rfl (Int.floor_mono hd)

/-- Witness for C7 at 8 ≤ 18. -/
theorem claim7_maxParamsMonotone_witness :
    recommendMaxParams 8 ≤ recommendMaxParams 18 :=
  claim7_maxParamsMonotone 8 18 (by norm_num)

/-- C8: the rendered report always contains the operating-system name and
the formatted RAM value passed in, and with an absent or empty device list
the document is the one built with no device section at all (the gpu-grid
slot emits the empty string). -/
theorem claim8_renderContains (system : String) (ram_gb : ℚ)
    (device_type : String) (vram_gb : ℚ) (max_params : ℤ)
    (gpu_details : Option (List GpuInfo))
    (recommended_models : Option (List (String × String)))
    (timestamp : String) :
    containsStr (generateHtmlReport system ram_gb device_type vram_gb
      max_params gpu_details recommended_models timestamp) system ∧
    containsStr (generateHtmlReport system ram_gb device_type vram_gb
      max_params gpu_details recommended_models timestamp)
      (fmtFixed 1 ram_gb) ∧
    (gpu_details = none ∨ gpu_details = some [] →
      generateHtmlReport system ram_gb device_type vram_gb max_params
        gpu_details recommended_models timestamp =
      htmlReportWithoutDeviceSection system ram_gb device_type vram_gb
        max_params recommended_models timestamp) := by
  refine ⟨⟨htmlChunk0 ++ tierColor vram_gb ++ htmlChunk1 ++
      tierColor vram_gb ++ htmlChunk2 ++ tierColor vram_gb ++ htmlChunk3 ++
      backendColor device_type ++ htmlChunk4 ++ backendColor device_type ++
      htmlChunk5 ++ backendColor device_type ++ htmlChunk6 ++
      backendColor device_type ++ htmlChunk7 ++ backendColor device_type ++
      htmlChunk8 ++ backendColor device_type ++ htmlChunk9 ++
      backendColor device_type ++ htmlChunk10 ++ tierName vram_gb ++
      htmlChunk11,
      htmlChunk12 ++ fmtFixed 1 ram_gb ++ htmlChunk13 ++
      fmtFixed 1 vram_gb ++ htmlChunk14 ++ toString max_params ++
      htmlChunk15 ++ backendIcon device_type ++ htmlChunk16 ++
      backendName device_type ++ htmlChunk17 ++
      gpuGridSlot (gpuHtml gpu_details) ++ htmlChunk18 ++
      modelsHtml recommended_models ++ htmlChunk19 ++
      warningSlot device_type ++ htmlChunk20 ++ timestamp ++ htmlChunk21,
      ?_⟩,
    ⟨htmlChunk0 ++ tierColor vram_gb ++ htmlChunk1 ++ tierColor vram_gb ++
      htmlChunk2 ++ tierColor vram_gb ++ htmlChunk3 ++
      backendColor device_type ++ htmlChunk4 ++ backendColor device_type ++
      htmlChunk5 ++ backendColor device_type ++ htmlChunk6 ++
      backendColor device_type ++ htmlChunk7 ++ backendColor device_type ++
      htmlChunk8 ++ backendColor device_type ++ htmlChunk9 ++
      backendColor device_type ++ htmlChunk10 ++ tierName vram_gb ++
      htmlChunk11 ++ system ++ htmlChunk12,
      htmlChunk13 ++ fmtFixed 1 vram_gb ++ htmlChunk14 ++
      toString max_params ++ htmlChunk15 ++ backendIcon device_type ++
      htmlChunk16 ++ backendName device_type ++ htmlChunk17 ++
      gpuGridSlot (gpuHtml gpu_details) ++ htmlChunk18 ++
      modelsHtml recommended_models ++ htmlChunk19 ++
      warningSlot device_type ++ htmlChunk20 ++ timestamp ++ htmlChunk21,
      ?_⟩, ?_⟩
  · simp only [generateHtmlReport, String.append_assoc]
  · simp only [generateHtmlReport, String.append_assoc]
  · rintro (h | h) <;> subst h <;>
      simp [generateHtmlReport, htmlReportWithoutDeviceSection, gpuHtml,
        gpuGridSlot, String.join]

/-- Witness for C8 with an absent device list. -/
theorem claim8_renderContains_witness :
    generateHtmlReport "Linux" 16.0 "cpu" 8.0 8 none (some standardModels)
      "today" =
    htmlReportWithoutDeviceSection "Linux" 16.0 "cpu" 8.0 8
      (some standardModels) "today" :=
  (claim8_renderContains "Linux" 16.0 "cpu" 8.0 8 none (some standardModels)
    "today").2.2 (Or.inl rfl)

/-- C9: the warning panel is emitted exactly for the CPU backend: with
device_type = "cpu" the rendered report contains the panel (the warning
slot emits it), and with any other device_type the document is the one
built with no warning panel at all. -/
theorem claim9_warningPanel (system : String) (ram_gb : ℚ)
    (device_type : String) (vram_gb : ℚ) (max_params : ℤ)
    (gpu_details : Option (List GpuInfo))
    (recommended_models : Option (List (String × String)))
    (timestamp : String) :
    (device_type = "cpu" →
      warningSlot device_type = warningBoxHtml ∧
      containsStr (generateHtmlReport system ram_gb device_type vram_gb
        max_params gpu_details recommended_models timestamp)
        warningBoxHtml) ∧
    (device_type ≠ "cpu" →
      warningSlot device_type = "" ∧
      generateHtmlReport system ram_gb device_type vram_gb max_params
        gpu_details recommended_models timestamp =
      htmlReportWithoutWarningPanel system ram_gb device_type vram_gb
        max_params gpu_details recommended_models timestamp) := by
  constructor
  · intro h
    have hs : warningSlot device_type = warningBoxHtml := by
      rw [warningSlot, if_pos h]
    refine ⟨hs, htmlChunk0 ++ tierColor vram_gb ++ htmlChunk1 ++
      tierColor vram_gb ++ htmlChunk2 ++ tierColor vram_gb ++ htmlChunk3 ++
      backendColor device_type ++ htmlChunk4 ++ backendColor device_type ++
      htmlChunk5 ++ backendColor device_type ++ htmlChunk6 ++
      backendColor device_type ++ htmlChunk7 ++ backendColor device_type ++
      htmlChunk8 ++ backendColor device_type ++ htmlChunk9 ++
      backendColor device_type ++ htmlChunk10 ++ tierName vram_gb ++
      htmlChunk11 ++ system ++ htmlChunk12 ++ fmtFixed 1 ram_gb ++
      htmlChunk13 ++ fmtFixed 1 vram_gb ++ htmlChunk14 ++
      toString max_params ++ htmlChunk15 ++ backendIcon device_type ++
      htmlChunk16 ++ backendName device_type ++ htmlChunk17 ++
      gpuGridSlot (gpuHtml gpu_details) ++ htmlChunk18 ++
      modelsHtml recommended_models ++ htmlChunk19,
      htmlChunk20 ++ timestamp ++ htmlChunk21, ?_⟩
    rw [generateHtmlReport, hs]
    simp only [String.append_assoc]
  · intro h
    have hs : warningSlot device_type = "" := by
      rw [warningSlot, if_neg h]
    refine ⟨hs, ?_⟩
    rw [generateHtmlReport, htmlReportWithoutWarningPanel, hs]
    simp only [String.append_assoc, String.append_empty]

/-- Witness for C9 at device_type "cpu" and "cuda". -/
theorem claim9_warningPanel_witness :
    containsStr (generateHtmlReport "Linux" 16.0 "cpu" 8.0 8 none
      (some standardModels) "today") warningBoxHtml ∧
    generateHtmlReport "Windows" 32.0 "cuda" 12.0 13 none
      (some advancedModels) "today" =
    htmlReportWithoutWarningPanel "Windows" 32.0 "cuda" 12.0 13 none
      (some advancedModels) "today" :=
  ⟨((claim9_warningPanel "Linux" 16.0 "cpu" 8.0 8 none (some standardModels)
      "today").1 rfl).2,
   ((claim9_warningPanel "Windows" 32.0 "cuda" 12.0 13 none
      (some advancedModels) "today").2 (by simp)).2⟩

/-- C10: the tier badge computed inside the report renderer and the model
list selected by the recommender classify every usable-memory value into
the same bracket: the recommended model list is always the one belonging
to the displayed tier name. -/
theorem claim10_tierModelAgreement (v : ℚ) :
    recommendModelList v = specModelsForTier (tierName v) := by
  have e1 : vramTierEnterprise = 48 := by norm_num [vramTierEnterprise]
  have e2 : vramTierProfessional = 24 := by norm_num [vramTierProfessional]
  have e3 : vramTierAdvanced = 16 := by norm_num [vramTierAdvanced]
  have e4 : vramTierStandard = 8 := by norm_num [vramTierStandard]
  rw [recommendModelList, tierName, e1, e2, e3, e4]
  by_cases h1 : v ≥ 48
  · rw [if_pos h1, if_pos h1]; rfl
  · rw [if_neg h1, if_neg h1]
    by_cases h2 : v ≥ 24
    · rw [if_pos h2, if_pos h2]; rfl
    · rw [if_neg h2, if_neg h2]
      by_cases h3 : v ≥ 16
      · rw [if_pos h3, if_pos h3]; rfl
      · rw [if_neg h3, if_neg h3]
        by_cases h4 : v ≥ 8
        · rw [if_pos h4, if_pos h4]; rfl
        · rw [if_neg h4, if_neg h4]; rfl
end LlModelSelection
